import Mathlib

/-!
Verification development for the pump-relay IoT notifier sketch
(`olis-iot-notifier.ino`). The sketch monitors one digital input and
debounces it with a turn-on (TON) and a turn-off (TOF) delay timer before
sending "circuit OPEN" / "circuit CLOSED" notifications via webhooks.

We shallowly embed the state-machine portion of `loop()` together with the
LED driver `toggle_inbuilt_led_fast()` and the reconnect path
`connect_to_wifi()`. Machine integers (`unsigned long`, 32-bit on the
target) are modelled as `Nat` with explicit reduction modulo `2 ^ 32`.
The hardware clock `millis()` is modelled as the absolute time in
milliseconds reduced modulo `2 ^ 32`.
-/

namespace OlisPump

/-- Modulus of the 32-bit `unsigned long` type used for `millis()` values. -/
def ULONG_MOD : Nat := 2 ^ 32

/-- The `millis()` reading at absolute time `t` (in ms since power-on):
the absolute time truncated to 32 bits. -/
def millis (t : Nat) : Nat := t % ULONG_MOD

/-- The C expression `now - start` on `unsigned long` operands: unsigned
wraparound subtraction modulo `2 ^ 32`. -/
def elapsed32 (now start : Nat) : Nat :=
  (now % ULONG_MOD + (ULONG_MOD - start % ULONG_MOD)) % ULONG_MOD

/-- `unsigned long ton_threshold = 1800;` -/
def ton_threshold : Nat := 1800

/-- `unsigned long tof_threshold = 1600;` -/
def tof_threshold : Nat := 1600

/-- `const unsigned long led_interval = 100;` -/
def led_interval : Nat := 100

/-- Arduino `LOW`. -/
def LOW : Nat := 0

/-- Arduino `HIGH`. -/
def HIGH : Nat := 1

/-- The two transition events the sketch can report, one per confirmed
alarm transition. -/
inductive Event where
  | EnteredAlarm
  | ClearedAlarm
deriving DecidableEq, Repr

/-- The webhook value string sent for each event
(`webhookTrigger("Pump-relay_circuit_OPEN!")` resp.
`webhookTrigger("Pump-relay_circuit_CLOSED_OK!")`). -/
def eventLabel : Event → String
  | Event.EnteredAlarm => "Pump-relay_circuit_OPEN!"
  | Event.ClearedAlarm => "Pump-relay_circuit_CLOSED_OK!"

/-- The global variables of the sketch that constitute the debounce state
machine: `last_state`, `TON_running`, `TOF_running`,
`approved_alarm_state`, `ton_start_marker`, `tof_start_marker`. -/
structure MachineState where
  last_state : Bool
  TON_running : Bool
  TOF_running : Bool
  approved_alarm_state : Bool
  ton_start_marker : Nat
  tof_start_marker : Nat
deriving DecidableEq, Repr

/-- The machine state right after `setup()`: `last_state` is the first
`digitalRead` of the monitored input, both timer flags carry their
initializers `false`, `approved_alarm_state` its initializer `false`, and
the start markers are zero-initialized globals. -/
def initState (firstRaw : Bool) : MachineState :=
  { last_state := firstRaw
    TON_running := false
    TOF_running := false
    approved_alarm_state := false
    ton_start_marker := 0
    tof_start_marker := 0 }

/-- The edge-handling block of `loop()` (lines 103-139): executed when
`new_state != last_state`; the four mutually exclusive `if` branches
dispatch on `new_state` and `approved_alarm_state`, and `last_state` is
updated at the end of the block. `tEdge` is the absolute time of the
`millis()` calls that set the start markers. -/
def edgeStep (s : MachineState) (new_state : Bool) (tEdge : Nat) : MachineState :=
  if new_state ≠ s.last_state then
    match new_state, s.approved_alarm_state with
    | true, false =>
        { s with TOF_running := false
                 TON_running := true
                 ton_start_marker := millis tEdge
                 last_state := new_state }
    | true, true =>
        { s with TOF_running := false
                 TON_running := false
                 last_state := new_state }
    | false, true =>
        { s with TOF_running := true
                 TON_running := false
                 tof_start_marker := millis tEdge
                 last_state := new_state }
    | false, false =>
        { s with TOF_running := false
                 TON_running := false
                 last_state := new_state }
  else s

/-- The TON block of `loop()` (lines 142-153): when `TON_running` and
`millis() - ton_start_marker >= ton_threshold`, stop the timer, approve
the alarm state, and call the dispatcher once with the OPEN label. The
returned triple is (new machine state, events emitted, dispatcher calls
made with their HTTP result codes). `send` is the dispatcher
(`webhookTrigger`), `t` the absolute time of the `millis()` call in the
comparison. -/
def tonStepD (send : Event → Int) (s : MachineState) (t : Nat) :
    MachineState × List Event × List (Event × Int) :=
  if s.TON_running = true then
    if ton_threshold ≤ elapsed32 (millis t) s.ton_start_marker then
      ({ s with TON_running := false, approved_alarm_state := true },
       [Event.EnteredAlarm],
       [(Event.EnteredAlarm, send Event.EnteredAlarm)])
    else (s, [], [])
  else (s, [], [])

/-- The TOF block of `loop()` (lines 156-166): when `TOF_running` and
`millis() - tof_start_marker >= tof_threshold`, stop the timer, clear the
approved alarm state, and call the dispatcher once with the CLOSED label. -/
def tofStepD (send : Event → Int) (s : MachineState) (t : Nat) :
    MachineState × List Event × List (Event × Int) :=
  if s.TOF_running = true then
    if tof_threshold ≤ elapsed32 (millis t) s.tof_start_marker then
      ({ s with TOF_running := false, approved_alarm_state := false },
       [Event.ClearedAlarm],
       [(Event.ClearedAlarm, send Event.ClearedAlarm)])
    else (s, [], [])
  else (s, [], [])

/-- One pass of the state-machine portion of `loop()`: read `raw`, run the
edge-handling block, then the TON block, then the TOF block. `tE`, `tN`,
`tF` are the absolute times of the successive `millis()` calls (edge
handling, TON check, TOF check). Returns the new machine state, the events
emitted this cycle (in order) and the dispatcher calls made. -/
def cycleD (send : Event → Int) (s : MachineState) (raw : Bool) (tE tN tF : Nat) :
    MachineState × List Event × List (Event × Int) :=
  let a := tonStepD send (edgeStep s raw tE) tN
  let b := tofStepD send a.1 tF
  (b.1, a.2.1 ++ b.2.1, a.2.2 ++ b.2.2)

/-- The state-machine cycle with the dispatcher abstracted away (the
dispatcher result feeds only the diagnostic log, see
`cycleD_result_independent_of_send`): new state and emitted events. -/
def cycle (s : MachineState) (raw : Bool) (tE tN tF : Nat) :
    MachineState × List Event :=
  ((cycleD (fun _ => 200) s raw tE tN tF).1,
   (cycleD (fun _ => 200) s raw tE tN tF).2.1)

/-- Machine states reachable from power-on by iterating the cycle with
arbitrary raw samples and clock readings. -/
inductive Reachable : MachineState → Prop where
  | init (b : Bool) : Reachable (initState b)
  | step (s : MachineState) (raw : Bool) (tE tN tF : Nat) :
      Reachable s → Reachable (cycle s raw tE tN tF).1

/-- The spec's four-state view of the machine. -/
inductive AlarmState where
  | Cleared
  | Confirming
  | Armed
  | Clearing
deriving DecidableEq, Repr

/-- The abstraction from the sketch's booleans to the spec's `AlarmState`:
`Confirming` while the TON timer runs, `Clearing` while the TOF timer
runs, otherwise `Armed` or `Cleared` by `approved_alarm_state`. -/
def alarmStateOf (s : MachineState) : AlarmState :=
  if s.TON_running then AlarmState.Confirming
  else if s.TOF_running then AlarmState.Clearing
  else if s.approved_alarm_state then AlarmState.Armed
  else AlarmState.Cleared

/-- Structural invariant maintained by the cycle: the TON timer runs only
before the alarm is approved (and with `last_state` high), the TOF timer
only while it is approved (and with `last_state` low), and never both. -/
def Inv (s : MachineState) : Prop :=
  (s.TON_running = true → s.approved_alarm_state = false ∧ s.last_state = true) ∧
  (s.TOF_running = true → s.approved_alarm_state = true ∧ s.last_state = false) ∧
  ¬(s.TON_running = true ∧ s.TOF_running = true)

instance (s : MachineState) : Decidable (Inv s) := by
  unfold Inv; infer_instance

/-- The LED-related globals: `led_state` and `previous_led_millis`
(`current_led_millis` is recomputed from `millis()` each call). -/
structure LedState where
  led_state : Nat
  previous_led_millis : Nat
deriving DecidableEq, Repr

/-- `toggle_inbuilt_led_fast()` (lines 229-245): when
`approved_alarm_state` is true, toggle `led_state` every `led_interval`
milliseconds; when it is false, hold `led_state` at `HIGH`. `t` is the
absolute time of the `millis()` call. The final `digitalWrite` outputs the
returned `led_state`. -/
def toggle_inbuilt_led_fast (approved_alarm_state : Bool) (l : LedState) (t : Nat) :
    LedState :=
  let l1 :=
    if approved_alarm_state = true then
      let current_led_millis := millis t
      if led_interval ≤ elapsed32 current_led_millis l.previous_led_millis then
        { previous_led_millis := current_led_millis
          led_state := if l.led_state = LOW then HIGH else LOW }
      else l
    else l
  if approved_alarm_state = false then { l1 with led_state := HIGH } else l1

/-- `connect_to_wifi()` (lines 184-227) as it acts on the modelled
globals: it drives the physical LED pin and the WiFi radio, blocks until
association, and sends one fixed-label webhook whose result lands in the
diagnostic log; it reads and writes none of the state-machine variables
and neither `led_state` nor `previous_led_millis`. `resp` is the HTTP code
returned by the webhook call. Returns the machine state, the LED globals
and the label sent. -/
def connect_to_wifi (m : MachineState) (l : LedState) (resp : Int) :
    MachineState × LedState × String × Int :=
  (m, l, ("Pump-relay_connected_to_WiFi!", resp))

/-- The per-`loop()` system state: the machine globals plus the LED
globals. -/
structure SysState where
  machine : MachineState
  led : LedState
deriving DecidableEq, Repr

/-- One full `loop()` iteration: state-machine cycle, LED driver, then the
WiFi check — when `connected` is false the blocking
`connect_to_wifi()` path runs before the next cycle. -/
def loopIter (connected : Bool) (send : Event → Int) (wifiResp : Int)
    (sys : SysState) (raw : Bool) (tE tN tF tLed : Nat) :
    SysState × List Event :=
  let c := cycleD send sys.machine raw tE tN tF
  let l1 := toggle_inbuilt_led_fast c.1.approved_alarm_state sys.led tLed
  if connected then ({ machine := c.1, led := l1 }, c.2.1)
  else
    let w := connect_to_wifi c.1 l1 wifiResp
    ({ machine := w.1, led := w.2.1 }, c.2.1)

/-- One cycle's worth of inputs: the raw sample and the absolute times of
the three `millis()` call sites. -/
structure CycleIn where
  raw : Bool
  tE : Nat
  tN : Nat
  tF : Nat
deriving DecidableEq, Repr

/-- Iterate the state-machine cycle over a list of per-cycle inputs,
collecting all emitted events in order. -/
def runCycles (s : MachineState) : List CycleIn → MachineState × List Event
  | [] => (s, [])
  | i :: rest =>
      let c := cycle s i.raw i.tE i.tN i.tF
      let r := runCycles c.1 rest
      (r.1, c.2 ++ r.2)

/-! ## Helper lemmas: the structural invariant is inductive -/

theorem inv_initState (b : Bool) : Inv (initState b) := by
  cases b <;> simp [Inv, initState]

theorem inv_edgeStep (s : MachineState) (raw : Bool) (t : Nat) (h : Inv s) :
    Inv (edgeStep s raw t) := by
  obtain ⟨ls, ton, tof, app, tm, fm⟩ := s
  cases raw <;> cases ls <;> cases app <;> simp_all [Inv, edgeStep]

theorem inv_tonStepD (send : Event → Int) (s : MachineState) (t : Nat) (h : Inv s) :
    Inv (tonStepD send s t).1 := by
  obtain ⟨ls, ton, tof, app, tm, fm⟩ := s
  cases ton <;> simp_all [Inv, tonStepD]
  split_ifs <;> simp_all

theorem inv_tofStepD (send : Event → Int) (s : MachineState) (t : Nat) (h : Inv s) :
    Inv (tofStepD send s t).1 := by
  obtain ⟨ls, ton, tof, app, tm, fm⟩ := s
  cases tof <;> simp_all [Inv, tofStepD]
  split_ifs <;> simp_all

theorem inv_cycleD (send : Event → Int) (s : MachineState) (raw : Bool)
    (tE tN tF : Nat) (h : Inv s) : Inv (cycleD send s raw tE tN tF).1 :=
  inv_tofStepD send _ tF (inv_tonStepD send _ tN (inv_edgeStep s raw tE h))

theorem inv_reachable (s : MachineState) (h : Reachable s) : Inv s := by
  induction h with
  | init b => exact inv_initState b
  | step s raw tE tN tF _ ih => exact inv_cycleD _ s raw tE tN tF ih

/-- A cycle in which no timer is running and the raw sample equals
`last_state` leaves the state untouched and emits nothing. -/
theorem cycle_stable_id (s : MachineState) (raw : Bool) (tE tN tF : Nat)
    (hton : s.TON_running = false) (htof : s.TOF_running = false)
    (hlast : raw = s.last_state) :
    cycle s raw tE tN tF = (s, []) := by
  simp [cycle, cycleD, edgeStep, tonStepD, tofStepD, hlast, hton, htof]

/-- Concrete reachable state in `Confirming`: one rising edge at `t = 0`
from the all-low initial state. -/
theorem reachable_confirming :
    Reachable (⟨true, true, false, false, 0, 0⟩ : MachineState) := by
  have h0 := Reachable.step (initState false) true 0 0 0 (Reachable.init false)
  have he : (cycle (initState false) true 0 0 0).1
      = (⟨true, true, false, false, 0, 0⟩ : MachineState) := by decide
  rwa [he] at h0

/-- Concrete reachable state in `Armed`: the TON timer of
`reachable_confirming` expires at `t = 2000`. -/
theorem reachable_armed :
    Reachable (⟨true, false, false, true, 0, 0⟩ : MachineState) := by
  have h0 := Reachable.step (⟨true, true, false, false, 0, 0⟩ : MachineState)
    true 2000 2000 2000 reachable_confirming
  have he : (cycle (⟨true, true, false, false, 0, 0⟩ : MachineState) true 2000 2000 2000).1
      = (⟨true, false, false, true, 0, 0⟩ : MachineState) := by decide
  rwa [he] at h0

/-- Concrete reachable state in `Clearing`: a falling edge at `t = 3000`
from the armed state of `reachable_armed`. -/
theorem reachable_clearing :
    Reachable (⟨false, false, true, true, 0, 3000⟩ : MachineState) := by
  have h0 := Reachable.step (⟨true, false, false, true, 0, 0⟩ : MachineState)
    false 3000 3000 3000 reachable_armed
  have he : (cycle (⟨true, false, false, true, 0, 0⟩ : MachineState) false 3000 3000 3000).1
      = (⟨false, false, true, true, 0, 3000⟩ : MachineState) := by decide
  rwa [he] at h0

/-! ## Claim theorems -/

/-- C3: starting from the initial state (both timer running-flags false,
alarm not approved), every state reached by iterating the cycle has the
TON running-flag and the TOF running-flag never both true. -/
theorem timers_mutually_exclusive (s : MachineState) (h : Reachable s) :
    ¬(s.TON_running = true ∧ s.TOF_running = true) :=
  (inv_reachable s h).2.2

/-- Witness for C3 at the concrete reachable state after one rising-edge
cycle from the all-low initial state. -/
theorem timers_mutually_exclusive_witness :
    ¬((cycle (initState false) true 0 0 0).1.TON_running = true ∧
      (cycle (initState false) true 0 0 0).1.TOF_running = true) :=
  timers_mutually_exclusive _
    (Reachable.step (initState false) true 0 0 0 (Reachable.init false))

/-- C9: the unsigned wraparound subtraction `now - started_at` modulo
`2 ^ 32` recovers the true elapsed duration — and hence the threshold
comparisons of both timers decide correctly — even when the `millis()`
value overflows between the timer start (`t0`) and the expiry check
(`t1`), provided the true elapsed time is below the wraparound period. -/
theorem elapsed32_wraparound_correct (t0 t1 : Nat) (h1 : t0 ≤ t1)
    (h2 : t1 - t0 < ULONG_MOD) :
    elapsed32 (millis t1) (millis t0) = t1 - t0 ∧
    (ton_threshold ≤ elapsed32 (millis t1) (millis t0) ↔ ton_threshold ≤ t1 - t0) ∧
    (tof_threshold ≤ elapsed32 (millis t1) (millis t0) ↔ tof_threshold ≤ t1 - t0) := by
  have hW : ULONG_MOD = 4294967296 := by norm_num [ULONG_MOD]
  have he : elapsed32 (millis t1) (millis t0) = t1 - t0 := by
    simp only [elapsed32, millis, hW] at *
    omega
  exact ⟨he, by rw [he], by rw [he]⟩

/-- Witness for C9 across an actual 32-bit overflow: the timer starts
100 ms before the wrap and is checked 100 ms after it. -/
theorem elapsed32_wraparound_correct_witness :
    elapsed32 (millis 4294967396) (millis 4294967196) = 200 ∧
    (ton_threshold ≤ elapsed32 (millis 4294967396) (millis 4294967196) ↔
      ton_threshold ≤ 4294967396 - 4294967196) ∧
    (tof_threshold ≤ elapsed32 (millis 4294967396) (millis 4294967196) ↔
      tof_threshold ≤ 4294967396 - 4294967196) :=
  elapsed32_wraparound_correct 4294967196 4294967396 (by norm_num)
    (by norm_num [ULONG_MOD])

/-- C6: a cycle whose raw sample equals the previous sample, taken in a
stable confirmed state (Armed with raw high, or Cleared with raw low, no
timer running), changes nothing — every machine variable is preserved and
no event is emitted. -/
theorem stable_state_idempotent (s : MachineState) (raw : Bool) (tE tN tF : Nat)
    (hton : s.TON_running = false) (htof : s.TOF_running = false)
    (hstable : (s.approved_alarm_state = true ∧ raw = true ∧ s.last_state = true) ∨
               (s.approved_alarm_state = false ∧ raw = false ∧ s.last_state = false)) :
    cycle s raw tE tN tF = (s, []) := by
  rcases hstable with ⟨_, h2, h3⟩ | ⟨_, h2, h3⟩ <;>
    exact cycle_stable_id s raw tE tN tF hton htof (h2.trans h3.symm)

/-- Witness for C6 at a concrete Armed state with nonzero start markers. -/
theorem stable_state_idempotent_witness :
    cycle (⟨true, false, false, true, 5, 7⟩ : MachineState) true 10 11 12
      = ((⟨true, false, false, true, 5, 7⟩ : MachineState), []) :=
  stable_state_idempotent _ true 10 11 12 rfl rfl (Or.inl ⟨rfl, rfl, rfl⟩)

/-- C7: the dispatcher's result code never feeds back into the machine:
the post-cycle state and the emitted events are identical for any two
dispatcher behaviours, and each emitted event is dispatched exactly once
(no retry within the cycle), its result merely recorded. -/
theorem cycleD_result_independent_of_send (send1 send2 : Event → Int)
    (s : MachineState) (raw : Bool) (tE tN tF : Nat) :
    (cycleD send1 s raw tE tN tF).1 = (cycleD send2 s raw tE tN tF).1 ∧
    (cycleD send1 s raw tE tN tF).2.1 = (cycleD send2 s raw tE tN tF).2.1 ∧
    (cycleD send1 s raw tE tN tF).2.2 =
      (cycleD send1 s raw tE tN tF).2.1.map (fun e => (e, send1 e)) := by
  simp only [cycleD, tonStepD, tofStepD]
  split_ifs <;> simp

/-- C8: the reconnection path leaves every state-machine variable — the
approved alarm state, both timer flags, both start markers and the last
sampled value — untouched (as well as the LED globals), so the elapsed
time of a pending timer keeps accruing against the wall clock across an
outage; consequently a full loop iteration yields the same machine state
and events whether or not the WiFi check triggers a reconnect. -/
theorem wifi_reconnect_frame (m : MachineState) (l : LedState) (r : Int)
    (connected : Bool) (send : Event → Int) (wifiResp : Int) (sys : SysState)
    (raw : Bool) (tE tN tF tLed t : Nat) :
    (connect_to_wifi m l r).1 = m ∧
    (connect_to_wifi m l r).2.1 = l ∧
    elapsed32 (millis t) (connect_to_wifi m l r).1.ton_start_marker
      = elapsed32 (millis t) m.ton_start_marker ∧
    elapsed32 (millis t) (connect_to_wifi m l r).1.tof_start_marker
      = elapsed32 (millis t) m.tof_start_marker ∧
    (loopIter connected send wifiResp sys raw tE tN tF tLed).1.machine
      = (loopIter true send wifiResp sys raw tE tN tF tLed).1.machine ∧
    (loopIter connected send wifiResp sys raw tE tN tF tLed).2
      = (loopIter true send wifiResp sys raw tE tN tF tLed).2 := by
  refine ⟨rfl, rfl, rfl, rfl, ?_, ?_⟩ <;>
    cases connected <;> simp [loopIter, connect_to_wifi]

/-- C10: when the very first sample at power-on reads true, `setup()`
initializes `last_state` to true with no timer running and the alarm not
approved, so as long as the input stays high — for any number of cycles
and any clock readings — no edge is detected, no timer starts, the state
is unchanged, and no event (in particular no `EnteredAlarm`) is emitted. -/
theorem startup_high_never_alarms (ins : List CycleIn)
    (h : ∀ i ∈ ins, i.raw = true) :
    (initState true).last_state = true ∧
    (initState true).TON_running = false ∧
    (initState true).TOF_running = false ∧
    (initState true).approved_alarm_state = false ∧
    runCycles (initState true) ins = (initState true, []) := by
  refine ⟨rfl, rfl, rfl, rfl, ?_⟩
  induction ins with
  | nil => rfl
  | cons i rest ih =>
      have hi : i.raw = true := h i (List.mem_cons_self i rest)
      have hc : cycle (initState true) i.raw i.tE i.tN i.tF = (initState true, []) :=
        cycle_stable_id _ _ _ _ _ rfl rfl hi
      have hr : runCycles (initState true) rest = (initState true, []) :=
        ih (fun j hj => h j (List.mem_cons_of_mem i hj))
      simp [runCycles, hc, hr]

/-- Witness for C10: the input held high over three cycles spanning more
than the TON threshold. -/
theorem startup_high_never_alarms_witness :
    runCycles (initState true)
      [⟨true, 0, 0, 0⟩, ⟨true, 5000, 5000, 5000⟩, ⟨true, 1000000000, 1000000000, 1000000000⟩]
      = (initState true, []) :=
  (startup_high_never_alarms
    [⟨true, 0, 0, 0⟩, ⟨true, 5000, 5000, 5000⟩, ⟨true, 1000000000, 1000000000, 1000000000⟩]
    (by decide)).2.2.2.2

/-- C1: from any reachable state, a cycle emits `EnteredAlarm` (the
"Pump-relay_circuit_OPEN!" event) only when, after edge handling, the
machine is in `Confirming` (TON timer running, alarm not approved) and the
wraparound elapsed time since the TON start marker has reached the TON
threshold at the expiry check; the cycle's event list is then exactly one
`EnteredAlarm`, and the expiry simultaneously stops the TON timer and sets
the approved alarm state. -/
theorem enteredAlarm_emission (s : MachineState) (raw : Bool) (tE tN tF : Nat)
    (h : Reachable s)
    (hev : Event.EnteredAlarm ∈ (cycle s raw tE tN tF).2) :
    (edgeStep s raw tE).TON_running = true ∧
    (edgeStep s raw tE).approved_alarm_state = false ∧
    alarmStateOf (edgeStep s raw tE) = AlarmState.Confirming ∧
    ton_threshold ≤ elapsed32 (millis tN) (edgeStep s raw tE).ton_start_marker ∧
    (cycle s raw tE tN tF).2 = [Event.EnteredAlarm] ∧
    (cycle s raw tE tN tF).1.TON_running = false ∧
    (cycle s raw tE tN tF).1.approved_alarm_state = true := by
  have hInv1 : Inv (edgeStep s raw tE) := inv_edgeStep s raw tE (inv_reachable s h)
  by_cases hton : (edgeStep s raw tE).TON_running = true
  · have happ : (edgeStep s raw tE).approved_alarm_state = false := (hInv1.1 hton).1
    have htof : (edgeStep s raw tE).TOF_running = false := by
      cases h' : (edgeStep s raw tE).TOF_running
      · rfl
      · exact absurd ⟨hton, h'⟩ hInv1.2.2
    by_cases hel : ton_threshold ≤ elapsed32 (millis tN) (edgeStep s raw tE).ton_start_marker
    · refine ⟨hton, happ, ?_, hel, ?_, ?_, ?_⟩ <;>
        simp [cycle, cycleD, tonStepD, tofStepD, alarmStateOf, hton, htof, hel]
    · exfalso
      simp [cycle, cycleD, tonStepD, tofStepD, hton, htof, hel] at hev
  · exfalso
    simp only [cycle, cycleD, tonStepD, tofStepD] at hev
    rw [if_neg hton] at hev
    split_ifs at hev <;> simp_all

/-- Witness for C1: from the reachable `Confirming` state with the TON
marker at 0, a cycle checked at `t = 2000` ms emits `EnteredAlarm`. -/
theorem enteredAlarm_emission_witness :
    (edgeStep (⟨true, true, false, false, 0, 0⟩ : MachineState) true 2000).TON_running = true ∧
    (edgeStep (⟨true, true, false, false, 0, 0⟩ : MachineState) true 2000).approved_alarm_state
      = false ∧
    alarmStateOf (edgeStep (⟨true, true, false, false, 0, 0⟩ : MachineState) true 2000)
      = AlarmState.Confirming ∧
    ton_threshold ≤ elapsed32 (millis 2000)
      (edgeStep (⟨true, true, false, false, 0, 0⟩ : MachineState) true 2000).ton_start_marker ∧
    (cycle (⟨true, true, false, false, 0, 0⟩ : MachineState) true 2000 2000 2000).2
      = [Event.EnteredAlarm] ∧
    (cycle (⟨true, true, false, false, 0, 0⟩ : MachineState) true 2000 2000 2000).1.TON_running
      = false ∧
    (cycle (⟨true, true, false, false, 0, 0⟩ : MachineState)
      true 2000 2000 2000).1.approved_alarm_state = true :=
  enteredAlarm_emission _ true 2000 2000 2000 reachable_confirming (by decide)

/-- C2: from any reachable state, a cycle emits `ClearedAlarm` (the
"Pump-relay_circuit_CLOSED_OK!" event) only when, after edge handling, the
machine is in `Clearing` (TOF timer running, alarm approved) and the
wraparound elapsed time since the TOF start marker has reached the TOF
threshold at the expiry check; the cycle's event list is then exactly one
`ClearedAlarm`, and the expiry simultaneously stops the TOF timer and
clears the approved alarm state. -/
theorem clearedAlarm_emission (s : MachineState) (raw : Bool) (tE tN tF : Nat)
    (h : Reachable s)
    (hev : Event.ClearedAlarm ∈ (cycle s raw tE tN tF).2) :
    (edgeStep s raw tE).TOF_running = true ∧
    (edgeStep s raw tE).approved_alarm_state = true ∧
    alarmStateOf (edgeStep s raw tE) = AlarmState.Clearing ∧
    tof_threshold ≤ elapsed32 (millis tF) (edgeStep s raw tE).tof_start_marker ∧
    (cycle s raw tE tN tF).2 = [Event.ClearedAlarm] ∧
    (cycle s raw tE tN tF).1.TOF_running = false ∧
    (cycle s raw tE tN tF).1.approved_alarm_state = false := by
  have hInv1 : Inv (edgeStep s raw tE) := inv_edgeStep s raw tE (inv_reachable s h)
  by_cases htof : (edgeStep s raw tE).TOF_running = true
  · have happ : (edgeStep s raw tE).approved_alarm_state = true := (hInv1.2.1 htof).1
    have hton : (edgeStep s raw tE).TON_running = false := by
      cases h' : (edgeStep s raw tE).TON_running
      · rfl
      · exact absurd ⟨h', htof⟩ hInv1.2.2
    by_cases hel : tof_threshold ≤ elapsed32 (millis tF) (edgeStep s raw tE).tof_start_marker
    · refine ⟨htof, happ, ?_, hel, ?_, ?_, ?_⟩ <;>
        simp [cycle, cycleD, tonStepD, tofStepD, alarmStateOf, hton, htof, hel]
    · exfalso
      simp [cycle, cycleD, tonStepD, tofStepD, hton, htof, hel] at hev
  · exfalso
    simp only [cycle, cycleD, tonStepD, tofStepD] at hev
    split_ifs at hev <;> simp_all

/-- Witness for C2: from the reachable `Clearing` state with the TOF
marker at 3000, a cycle checked at `t = 5000` ms emits `ClearedAlarm`. -/
theorem clearedAlarm_emission_witness :
    (edgeStep (⟨false, false, true, true, 0, 3000⟩ : MachineState) false 5000).TOF_running
      = true ∧
    (edgeStep (⟨false, false, true, true, 0, 3000⟩ : MachineState)
      false 5000).approved_alarm_state = true ∧
    alarmStateOf (edgeStep (⟨false, false, true, true, 0, 3000⟩ : MachineState) false 5000)
      = AlarmState.Clearing ∧
    tof_threshold ≤ elapsed32 (millis 5000)
      (edgeStep (⟨false, false, true, true, 0, 3000⟩ : MachineState) false 5000).tof_start_marker ∧
    (cycle (⟨false, false, true, true, 0, 3000⟩ : MachineState) false 5000 5000 5000).2
      = [Event.ClearedAlarm] ∧
    (cycle (⟨false, false, true, true, 0, 3000⟩ : MachineState) false 5000 5000 5000).1.TOF_running
      = false ∧
    (cycle (⟨false, false, true, true, 0, 3000⟩ : MachineState)
      false 5000 5000 5000).1.approved_alarm_state = false :=
  clearedAlarm_emission _ false 5000 5000 5000 reachable_clearing (by decide)

/-- C4: from any reachable state with a timer pending, a cycle in which
the raw sample flips back (low while `Confirming`, high while `Clearing`)
clears both timer running-flags, leaves the approved alarm state
unchanged — so the machine returns to its prior confirmed state, `Cleared`
resp. `Armed` — and emits no event. -/
theorem flip_back_cancels (s : MachineState) (tE tN tF : Nat) (h : Reachable s) :
    (s.TON_running = true →
       (cycle s false tE tN tF).2 = [] ∧
       (cycle s false tE tN tF).1.TON_running = false ∧
       (cycle s false tE tN tF).1.TOF_running = false ∧
       (cycle s false tE tN tF).1.approved_alarm_state = s.approved_alarm_state ∧
       alarmStateOf (cycle s false tE tN tF).1 = AlarmState.Cleared) ∧
    (s.TOF_running = true →
       (cycle s true tE tN tF).2 = [] ∧
       (cycle s true tE tN tF).1.TON_running = false ∧
       (cycle s true tE tN tF).1.TOF_running = false ∧
       (cycle s true tE tN tF).1.approved_alarm_state = s.approved_alarm_state ∧
       alarmStateOf (cycle s true tE tN tF).1 = AlarmState.Armed) := by
  have hInv := inv_reachable s h
  obtain ⟨ls, ton, tof, app, tm, fm⟩ := s
  obtain ⟨h1, h2, _⟩ := hInv
  constructor <;> intro hrun
  · obtain ⟨happ, hls⟩ := h1 hrun
    subst hrun happ hls
    simp [cycle, cycleD, edgeStep, tonStepD, tofStepD, alarmStateOf]
  · obtain ⟨happ, hls⟩ := h2 hrun
    subst hrun happ hls
    simp [cycle, cycleD, edgeStep, tonStepD, tofStepD, alarmStateOf]

/-- Witness for C4: cancelling the concrete reachable `Confirming` state
by a low sample at `t = 500` ms (before the TON threshold). -/
theorem flip_back_cancels_witness :
    (cycle (⟨true, true, false, false, 0, 0⟩ : MachineState) false 500 500 500).2 = [] ∧
    (cycle (⟨true, true, false, false, 0, 0⟩ : MachineState) false 500 500 500).1.TON_running
      = false ∧
    (cycle (⟨true, true, false, false, 0, 0⟩ : MachineState) false 500 500 500).1.TOF_running
      = false ∧
    (cycle (⟨true, true, false, false, 0, 0⟩ : MachineState)
        false 500 500 500).1.approved_alarm_state
      = (⟨true, true, false, false, 0, 0⟩ : MachineState).approved_alarm_state ∧
    alarmStateOf (cycle (⟨true, true, false, false, 0, 0⟩ : MachineState) false 500 500 500).1
      = AlarmState.Cleared :=
  (flip_back_cancels _ 500 500 500 reachable_confirming).1 rfl

/-- C5 counterexample: a reachable state whose spec-level `AlarmState` is
`Clearing` (not `Armed`) in which the LED nevertheless blinks: with the
blink interval elapsed, `toggle_inbuilt_led_fast` toggles the LED output
HIGH→LOW and then LOW→HIGH, because the source gates the blinking on
`approved_alarm_state`, which is still true while the TOF timer runs. -/
theorem led_blinks_in_clearing :
    Reachable (⟨false, false, true, true, 0, 3000⟩ : MachineState) ∧
    alarmStateOf (⟨false, false, true, true, 0, 3000⟩ : MachineState)
      = AlarmState.Clearing ∧
    alarmStateOf (⟨false, false, true, true, 0, 3000⟩ : MachineState)
      ≠ AlarmState.Armed ∧
    (toggle_inbuilt_led_fast
        (⟨false, false, true, true, 0, 3000⟩ : MachineState).approved_alarm_state
        ⟨HIGH, 0⟩ 100).led_state = LOW ∧
    (toggle_inbuilt_led_fast
        (⟨false, false, true, true, 0, 3000⟩ : MachineState).approved_alarm_state
        ⟨LOW, 100⟩ 200).led_state = HIGH :=
  ⟨reachable_clearing, by decide, by decide, by decide, by decide⟩

/-- C5 (amended): the indicator pattern is a pure function of
`approved_alarm_state` — equivalently, of whether the spec-level state is
in {`Armed`, `Clearing`} — and it blinks (toggles whenever the blink
interval has elapsed, recording the toggle time) iff that flag is true; in
`Cleared` and `Confirming` the LED is held steady at HIGH. -/
theorem led_blinks_iff_approved (s : MachineState) (h : Reachable s)
    (l : LedState) (t : Nat) :
    ((alarmStateOf s = AlarmState.Armed ∨ alarmStateOf s = AlarmState.Clearing) ↔
      s.approved_alarm_state = true) ∧
    (s.approved_alarm_state = false →
      (toggle_inbuilt_led_fast s.approved_alarm_state l t).led_state = HIGH) ∧
    (s.approved_alarm_state = true →
      led_interval ≤ elapsed32 (millis t) l.previous_led_millis →
      (toggle_inbuilt_led_fast s.approved_alarm_state l t).led_state
          = (if l.led_state = LOW then HIGH else LOW) ∧
      (toggle_inbuilt_led_fast s.approved_alarm_state l t).previous_led_millis = millis t) ∧
    (s.approved_alarm_state = true →
      elapsed32 (millis t) l.previous_led_millis < led_interval →
      toggle_inbuilt_led_fast s.approved_alarm_state l t = l) := by
  have hInv := inv_reachable s h
  refine ⟨?_, ?_, ?_, ?_⟩
  · obtain ⟨ls, ton, tof, app, tm, fm⟩ := s
    obtain ⟨h1, h2, _⟩ := hInv
    cases ton <;> cases tof <;> cases app <;> simp_all [alarmStateOf]
  · intro happ
    simp [toggle_inbuilt_led_fast, happ]
  · intro happ hel
    constructor <;> simp [toggle_inbuilt_led_fast, happ, hel]
  · intro happ hel
    simp [toggle_inbuilt_led_fast, happ, Nat.not_le.mpr hel]

/-- Witness for the amended C5 at the reachable `Clearing` state, the LED
currently HIGH and the interval elapsed. -/
theorem led_blinks_iff_approved_witness :
    ((alarmStateOf (⟨false, false, true, true, 0, 3000⟩ : MachineState) = AlarmState.Armed ∨
      alarmStateOf (⟨false, false, true, true, 0, 3000⟩ : MachineState) = AlarmState.Clearing) ↔
      (⟨false, false, true, true, 0, 3000⟩ : MachineState).approved_alarm_state = true) ∧
    ((⟨false, false, true, true, 0, 3000⟩ : MachineState).approved_alarm_state = false →
      (toggle_inbuilt_led_fast
          (⟨false, false, true, true, 0, 3000⟩ : MachineState).approved_alarm_state
          ⟨HIGH, 0⟩ 100).led_state = HIGH) ∧
    ((⟨false, false, true, true, 0, 3000⟩ : MachineState).approved_alarm_state = true →
      led_interval ≤ elapsed32 (millis 100) (LedState.previous_led_millis ⟨HIGH, 0⟩) →
      (toggle_inbuilt_led_fast
          (⟨false, false, true, true, 0, 3000⟩ : MachineState).approved_alarm_state
          ⟨HIGH, 0⟩ 100).led_state
        = (if (LedState.led_state ⟨HIGH, 0⟩) = LOW then HIGH else LOW) ∧
      (toggle_inbuilt_led_fast
          (⟨false, false, true, true, 0, 3000⟩ : MachineState).approved_alarm_state
          ⟨HIGH, 0⟩ 100).previous_led_millis = millis 100) ∧
    ((⟨false, false, true, true, 0, 3000⟩ : MachineState).approved_alarm_state = true →
      elapsed32 (millis 100) (LedState.previous_led_millis ⟨HIGH, 0⟩) < led_interval →
      toggle_inbuilt_led_fast
          (⟨false, false, true, true, 0, 3000⟩ : MachineState).approved_alarm_state
          ⟨HIGH, 0⟩ 100 = ⟨HIGH, 0⟩) :=
  led_blinks_iff_approved _ reachable_clearing ⟨HIGH, 0⟩ 100

end OlisPump
